import Mathlib

/-!
Shallow embedding of the ESP32 multitool web API handlers
(`src/web_api_handlers.h`) and of the OTA upload path, together with
theorems settling the specification claims about them.

Each HTTP handler is modelled as a pure function from its inputs
(authentication outcome, HTTP method, decoded request body, lock
acquisition outcome, ambient state) to the ordered list of observable
actions it performs (state mutations, persistent-store writes, hardware
writes, HTTP sends, delays, restarts).  A request body is `Option B`:
`none` models a body that fails JSON deserialization, and inside `B`
each field is an `Option`, `none` modelling an absent key (ArduinoJson
yields the documented default, or a null string pointer, for those).
-/

namespace Esp32

/-- A JSON value as placed into a response document. -/
inductive JVal where
  | jb (b : Bool)
  | ji (i : Int)
  | jn (n : Nat)
  | js (s : String)
deriving DecidableEq, Repr

/-- The shared device-state record (`SharedState` in the sketch),
guarded by `stateMutex`. -/
structure SharedState where
  relayState : Bool
  sensorValue : Int
  wifiClients : Int
  ipAddress : String
deriving DecidableEq, Repr

/-- One record of the I2C scan result (`struct I2CDevice`). -/
structure I2CDevice where
  addr : Nat
  name : String
deriving DecidableEq, Repr

/-- An observable action performed by a handler, in program order. -/
inductive Action where
  /-- evaluation of `server.authenticate(www_username, www_password)` -/
  | authCheck
  /-- `server.requestAuthentication()` -/
  | challenge
  /-- `server.send(code, ctype, body)` with a literal body -/
  | send (code : Nat) (ctype body : String)
  /-- `serializeJson(doc, response); server.send(code, "application/json", response)` -/
  | sendDoc (code : Nat) (doc : List (String × JVal))
  /-- the manually built i2c scan response `{"devices":[...]}` -/
  | sendDevices (code : Nat) (devs : List I2CDevice)
  /-- `sharedState.relayState = b` under the state mutex -/
  | setRelay (b : Bool)
  /-- `currentPWMValue = v` -/
  | setPWMStored (v : Int)
  /-- gamma-corrected `ledcWrite` of the clamped percentage `v` -/
  | pwmDrive (v : Int)
  /-- `currentServoAngle = a` -/
  | setServoStored (a : Int)
  /-- `myServo.attach(Pins::SERVO)` -/
  | servoAttach
  /-- `myServo.write(a)` -/
  | servoWrite (a : Int)
  /-- `preferences.begin(ns, false)` -/
  | prefBegin (ns : String)
  /-- `preferences.putString(key, val)` -/
  | prefPutStr (key val : String)
  /-- `preferences.putUInt(key, val)` -/
  | prefPutNat (key : String) (val : Nat)
  /-- `preferences.end()` -/
  | prefEnd
  /-- `strcpy(www_password, s)` -/
  | setWwwPassword (s : String)
  /-- `strcpy(ota_password, s)` -/
  | setOtaPassword (s : String)
  /-- `Serial` logging (printf / printError) -/
  | log (msg : String)
  /-- `delay(ms)` -/
  | delayMs (ms : Nat)
  /-- `ESP.restart()` -/
  | restart
deriving DecidableEq, Repr

/-- Body of `{"status":"ok"}`. -/
def jsonOkBody : String := "\x7b\"status\":\"ok\"\x7d"

/-- Body of `{"error":"Invalid JSON"}`. -/
def jsonInvalidBody : String := "\x7b\"error\":\"Invalid JSON\"\x7d"

/-- Arduino `constrain(x, lo, hi)`. -/
def constrain (x lo hi : Int) : Int :=
  if x < lo then lo else if x > hi then hi else x

/-- Keys of a JSON document, in insertion order. -/
def docKeys (doc : List (String × JVal)) : List String := doc.map Prod.fst

/-- The status document built by `handleAPIStatus`: the four fields
copied from the shared state are added only when the state mutex is
obtained within its 100 ms bound; heap/uptime/rssi/pwm/servo are added
unconditionally afterwards. -/
def statusDoc (lockOk : Bool) (st : SharedState) (heap uptime : Nat)
    (rssi : Int) (pwm servo : Int) : List (String × JVal) :=
  (if lockOk then
    [("relay", .jb st.relayState), ("sensor", .ji st.sensorValue),
     ("clients", .ji st.wifiClients), ("ip", .js st.ipAddress)]
   else []) ++
  [("heap", .jn heap), ("uptime", .jn uptime), ("rssi", .ji rssi),
   ("pwm", .ji pwm), ("servo", .ji servo)]

/-- `handleAPIStatus` (GET /api/status). -/
def handleAPIStatus (authOk lockOk : Bool) (st : SharedState)
    (heap uptime : Nat) (rssi : Int) (pwm servo : Int) : List Action :=
  if !authOk then [.challenge]
  else [.sendDoc 200 (statusDoc lockOk st heap uptime rssi pwm servo)]

/-- Decoded body of POST /api/relay; `state` is `none` when the key is
absent (ArduinoJson then yields the `| false` default). -/
structure RelayBody where
  state : Option Bool
deriving DecidableEq, Repr

/-- `handleAPIRelay` (POST /api/relay).  `body = none` models a
`DeserializationError`. -/
def handleAPIRelay (authOk isPost : Bool) (body : Option RelayBody)
    (lockOk : Bool) : List Action :=
  if !authOk then [.challenge]
  else if !isPost then [.send 405 "text/plain" "Method Not Allowed"]
  else match body with
  | none => [.send 400 "application/json" jsonInvalidBody]
  | some b =>
    let state := b.state.getD false
    (if lockOk then [.setRelay state] else []) ++
    [.send 200 "application/json" jsonOkBody]

/-- Decoded body of POST /api/pwm. -/
structure PWMBody where
  value : Option Int
deriving DecidableEq, Repr

/-- `handleAPIPWM` (POST /api/pwm): `value = doc["value"] | 0`, then
`constrain(value, 0, 100)`, store, gamma-correct and drive the output. -/
def handleAPIPWM (authOk isPost : Bool) (body : Option PWMBody) : List Action :=
  if !authOk then [.challenge]
  else if !isPost then [.send 405 "text/plain" "Method Not Allowed"]
  else match body with
  | none => [.send 400 "application/json" jsonInvalidBody]
  | some b =>
    let value := constrain (b.value.getD 0) 0 100
    [.setPWMStored value, .pwmDrive value,
     .send 200 "application/json" jsonOkBody]

/-- Decoded body of POST /api/servo. -/
structure ServoBody where
  angle : Option Int
deriving DecidableEq, Repr

/-- `handleAPIServo` (POST /api/servo): `angle = doc["angle"] | 90`,
then `constrain(angle, 0, 180)`, store, lazily attach, write.
`attached` is the value of the `static bool servoAttached` flag. -/
def handleAPIServo (authOk isPost : Bool) (body : Option ServoBody)
    (attached : Bool) : List Action :=
  if !authOk then [.challenge]
  else if !isPost then [.send 405 "text/plain" "Method Not Allowed"]
  else match body with
  | none => [.send 400 "application/json" jsonInvalidBody]
  | some b =>
    let angle := constrain (b.angle.getD 90) 0 180
    [.setServoStored angle] ++
    (if !attached then [.servoAttach] else []) ++
    [.servoWrite angle, .send 200 "application/json" jsonOkBody]

/-- The device list built by the i2c scan loop: `for (addr = 1; addr < 127;
addr++)`, pushing `{addr, getI2CDeviceName(addr)}` for every address whose
`Wire.endTransmission()` returns 0 (`ack addr = true`). -/
def i2cScanDevices (ack : Nat → Bool) (name : Nat → String) : List I2CDevice :=
  (List.range' 1 126).foldl
    (fun acc a => if ack a then acc ++ [⟨a, name a⟩] else acc) []

/-- `handleAPIi2cScan` (GET /api/i2c/scan): clears the cache, scans only
when the i2c mutex is obtained within its 500 ms bound, then always sends
a 200 response with the (possibly empty) device list. -/
def handleAPIi2cScan (authOk lockOk : Bool) (ack : Nat → Bool)
    (name : Nat → String) : List Action :=
  if !authOk then [.challenge]
  else
    let devs := if lockOk then i2cScanDevices ack name else []
    [.sendDevices 200 devs]

/-- Decoded body of POST /api/password; a `none` field models an absent
key, for which ArduinoJson yields a null `const char*`. -/
structure PasswordBody where
  current : Option String
  newpass : Option String
  otapass : Option String
deriving DecidableEq, Repr

/-- `handleAPIPassword` (POST /api/password).  Result `none` models
undefined behavior: `strcmp` or `strlen` applied to the null pointer an
absent field decodes to.  The C `||` in the length check short-circuits,
so `strlen(otaPass)` is only reached when `strlen(newPass) >= 8`. -/
def handleAPIPassword (authOk isPost : Bool) (body : Option PasswordBody)
    (wwwPassword : String) : Option (List Action) :=
  if !authOk then some [.challenge]
  else if !isPost then some [.send 405 "text/plain" "Method Not Allowed"]
  else match body with
  | none => some [.send 400 "text/plain" "Invalid JSON"]
  | some b =>
    match b.current with
    | none => none
    | some current =>
      if current ≠ wwwPassword then
        some [.send 401 "text/plain" "Current password incorrect"]
      else match b.newpass with
      | none => none
      | some newPass =>
        if newPass.length < 8 then
          some [.send 400 "text/plain" "Passwords must be at least 8 characters"]
        else match b.otapass with
        | none => none
        | some otaPass =>
          if otaPass.length < 8 then
            some [.send 400 "text/plain" "Passwords must be at least 8 characters"]
          else
            some [.prefBegin "auth", .prefPutStr "pass" newPass,
                  .prefPutStr "otapass" otaPass, .prefEnd,
                  .setWwwPassword newPass, .setOtaPassword otaPass,
                  .send 200 "application/json" jsonOkBody]

/-- Decoded body of POST /api/mqtt; each `none` field is an absent key,
replaced by the `|` default at the write. -/
structure MQTTBody where
  server : Option String
  port : Option Nat
  client : Option String
  user : Option String
  pass : Option String
deriving DecidableEq, Repr

/-- `handleAPIMQTT` (POST /api/mqtt): persists all five keys of the
`mqtt` namespace on every update, substituting documented defaults for
absent fields. -/
def handleAPIMQTT (authOk isPost : Bool) (body : Option MQTTBody) : List Action :=
  if !authOk then [.challenge]
  else if !isPost then [.send 405 "text/plain" "Method Not Allowed"]
  else match body with
  | none => [.send 400 "text/plain" "Invalid JSON"]
  | some b =>
    [.prefBegin "mqtt",
     .prefPutStr "server" (b.server.getD "broker.hivemq.com"),
     .prefPutNat "port" (b.port.getD 1883),
     .prefPutStr "client" (b.client.getD "ESP32_Multitool"),
     .prefPutStr "user" (b.user.getD ""),
     .prefPutStr "pass" (b.pass.getD ""),
     .prefEnd,
     .send 200 "application/json" jsonOkBody]

/-! ## OTA upload path

The flash-update target (the Arduino-ESP32 `Update` object) is not part
of this repository; the handlers consume it through the narrow
begin/write/end contract.  It is modelled below from the spec: once an
error is latched (failed begin, short write, failed validation) the
session is Failed, later writes are no-ops that append nothing, and
`hasError()` stays true until a fresh begin. -/

/-- Failure causes of the modelled flash-update target, with the detail
string `Update.printError` / `errorString()` reports for each. -/
inductive UpdateError where
  | beginFail
  | writeFail
  | validateFail
deriving DecidableEq, Repr

/-- Modelled from the spec: the failure detail text of the flash-update
target for each failure cause. -/
def UpdateError.detail : UpdateError → String
  | .beginFail => "Bad Size Given"
  | .writeFail => "Flash Write Failed"
  | .validateFail => "MD5 Check Failed"

/-- Modelled from the spec: the state of the flash-update target
(`Update` object): whether an update is running, the latched error if
any, the bytes actually appended to flash, and whether a finalize
succeeded. -/
structure UpdateState where
  running : Bool
  err : Option UpdateError
  written : Nat
  done : Bool
deriving DecidableEq, Repr

/-- The `Update` object before any upload exchange. -/
def updateIdle : UpdateState := ⟨false, none, 0, false⟩

/-- Modelled from the spec: `Update.begin(UPDATE_SIZE_UNKNOWN)` opens a
fresh flash-update target of unknown size; `ok = false` injects an open
failure, which latches an error. -/
def updateBegin (ok : Bool) : UpdateState × Bool :=
  if ok then (⟨true, none, 0, false⟩, true)
  else (⟨false, some .beginFail, 0, false⟩, false)

/-- Modelled from the spec: `Update.write(buf, size)` returns the number
of bytes appended.  With an error latched or no update running it
appends nothing and returns 0; otherwise it appends the `accepted`
bytes the flash actually takes (the fault-injection parameter), and a
short write latches a write error and aborts the running update. -/
def updateWrite (s : UpdateState) (size accepted : Nat) : UpdateState × Nat :=
  if s.err.isSome || !s.running then (s, 0)
  else
    let acc := min accepted size
    if acc < size then
      ({ s with running := false, err := some .writeFail,
                written := s.written + acc }, acc)
    else
      ({ s with written := s.written + size }, size)

/-- Modelled from the spec: `Update.end(true)` validates the assembled
image.  It fails when an error is latched or nothing is running;
`validateOk = false` injects a validation failure.  It appends nothing
in any case. -/
def updateFinish (s : UpdateState) (validateOk : Bool) : UpdateState × Bool :=
  if s.err.isSome || !s.running then ({ s with running := false }, false)
  else if validateOk then ({ s with running := false, done := true }, true)
  else ({ s with running := false, err := some .validateFail }, false)

/-- `Update.hasError()`. -/
def updateHasError (s : UpdateState) : Bool := s.err.isSome

/-- The OTA upload session states of the spec. -/
inductive OTAStatus where
  | Idle
  | Receiving
  | Complete
  | Failed
deriving DecidableEq, Repr

/-- The session status an `UpdateState` denotes. -/
def sessionStatus (s : UpdateState) : OTAStatus :=
  if s.err.isSome then .Failed
  else if s.done then .Complete
  else if s.running then .Receiving
  else .Idle

/-- One upload callback event (`HTTPUpload.status`): `UPLOAD_FILE_START`
with the begin-fault flag, `UPLOAD_FILE_WRITE` with the chunk size and
the bytes the flash accepts, `UPLOAD_FILE_END` with the validation-fault
flag. -/
inductive UploadEvent where
  | start (filename : String) (beginOk : Bool)
  | write (size accepted : Nat)
  | finish (validateOk : Bool)
deriving DecidableEq, Repr

/-- `handleOTAUpdate` (the upload callback of POST /update), invoked once
per upload event.  Every invocation first evaluates
`server.authenticate(...)` and challenges on failure; otherwise it
dispatches on the event. -/
def handleOTAUpdate (authOk : Bool) (s : UpdateState) (ev : UploadEvent) :
    UpdateState × List Action :=
  if !authOk then (s, [.authCheck, .challenge])
  else match ev with
  | .start fn beginOk =>
    ((updateBegin beginOk).1,
     [.authCheck, .log ("Update: " ++ fn)] ++
     (if !(updateBegin beginOk).2 then [.log "printError"] else []))
  | .write size accepted =>
    ((updateWrite s size accepted).1,
     [.authCheck] ++
     (if (updateWrite s size accepted).2 ≠ size then [.log "printError"] else []))
  | .finish validateOk =>
    ((updateFinish s validateOk).1,
     [.authCheck] ++
     (if (updateFinish s validateOk).2 then [.log "Update Success"]
      else [.log "printError"]))

/-- The state after the upload callback has consumed a list of write
events (one per body chunk of the same exchange). -/
def runWrites (authOk : Bool) (s : UpdateState) (chunks : List (Nat × Nat)) :
    UpdateState :=
  chunks.foldl (fun st c => (handleOTAUpdate authOk st (.write c.1 c.2)).1) s

/-- `handleOTAUpdateDone`, the completion responder of POST /update: it
performs no authentication check, sends a fixed failure text on
`Update.hasError()`, and otherwise sends the success text, delays
1000 ms and restarts. -/
def handleOTAUpdateDone (s : UpdateState) : List Action :=
  if updateHasError s then [.send 500 "text/plain" "Update Failed"]
  else [.send 200 "text/plain" "Update OK - Rebooting...",
        .delayMs 1000, .restart]

/-- `true` when the first character list starts the second. -/
def prefixOfChars : List Char → List Char → Bool
  | [], _ => true
  | _ :: _, [] => false
  | c :: cs, d :: ds => c == d && prefixOfChars cs ds

/-- `true` when `needle` occurs contiguously inside `hay`. -/
def subOfChars (needle : List Char) : List Char → Bool
  | [] => prefixOfChars needle []
  | c :: t => prefixOfChars needle (c :: t) || subOfChars needle t

/-- `true` when `needle` occurs as a substring of `hay`. -/
def strContains (hay needle : String) : Bool :=
  subOfChars needle.data hay.data

/-- `true` on the actions that mutate device state, runtime credentials,
the durable store, or terminate the process. -/
def mutates : Action → Bool
  | .setRelay _ => true
  | .setPWMStored _ => true
  | .pwmDrive _ => true
  | .setServoStored _ => true
  | .servoAttach => true
  | .servoWrite _ => true
  | .prefPutStr _ _ => true
  | .prefPutNat _ _ => true
  | .setWwwPassword _ => true
  | .setOtaPassword _ => true
  | .restart => true
  | _ => false

/-- A trace that performs no mutation at all. -/
def mutationFree (acts : List Action) : Bool :=
  acts.all (fun a => !mutates a)

/-! ## Claims -/

/-- Claim C5: for every integer input `v` to the PWM endpoint the stored
pwm value equals `clamp(v,0,100)`, and for every integer input `a` to the
servo endpoint the stored angle equals `clamp(a,0,180)`; out-of-range
input is clamped, the request always succeeds with 200, and the stored
values are always within their ranges. -/
theorem c5_pwm_servo_clamped (v a : Int) (attached : Bool) :
    handleAPIPWM true true (some ⟨some v⟩) =
      [.setPWMStored (constrain v 0 100), .pwmDrive (constrain v 0 100),
       .send 200 "application/json" jsonOkBody] ∧
    handleAPIServo true true (some ⟨some a⟩) attached =
      [.setServoStored (constrain a 0 180)] ++
      (if !attached then [.servoAttach] else []) ++
      [.servoWrite (constrain a 0 180),
       .send 200 "application/json" jsonOkBody] ∧
    0 ≤ constrain v 0 100 ∧ constrain v 0 100 ≤ 100 ∧
    0 ≤ constrain a 0 180 ∧ constrain a 0 180 ≤ 180 := by
  refine ⟨rfl, rfl, ?_, ?_, ?_, ?_⟩ <;>
    · simp only [constrain]
      split_ifs <;> omega

/-- Claim C4: every authenticated status request sends a single 200
response whose document always contains the heap, uptime, rssi, pwm and
servo fields; when the state lock is not obtained within its bound,
exactly the four fields sourced from the shared state record (relay,
sensor, clients, ip) are omitted and nothing else changes. -/
theorem c4_status_always_has_system_fields (lockOk : Bool) (st : SharedState)
    (heap uptime : Nat) (rssi pwm servo : Int) :
    handleAPIStatus true lockOk st heap uptime rssi pwm servo =
      [.sendDoc 200 (statusDoc lockOk st heap uptime rssi pwm servo)] ∧
    "heap" ∈ docKeys (statusDoc lockOk st heap uptime rssi pwm servo) ∧
    "uptime" ∈ docKeys (statusDoc lockOk st heap uptime rssi pwm servo) ∧
    "rssi" ∈ docKeys (statusDoc lockOk st heap uptime rssi pwm servo) ∧
    "pwm" ∈ docKeys (statusDoc lockOk st heap uptime rssi pwm servo) ∧
    "servo" ∈ docKeys (statusDoc lockOk st heap uptime rssi pwm servo) ∧
    (lockOk = false →
      docKeys (statusDoc lockOk st heap uptime rssi pwm servo) =
        ["heap", "uptime", "rssi", "pwm", "servo"]) ∧
    (lockOk = true →
      docKeys (statusDoc lockOk st heap uptime rssi pwm servo) =
        ["relay", "sensor", "clients", "ip",
         "heap", "uptime", "rssi", "pwm", "servo"]) := by
  cases lockOk <;>
    simp [handleAPIStatus, statusDoc, docKeys]

/-- Witness for C4 at a concrete request with the state lock unavailable. -/
theorem c4_witness :
    handleAPIStatus true false ⟨true, 2048, 1, "10.0.0.2"⟩ 150000 9999 (-55) 40 90 =
      [.sendDoc 200 (statusDoc false ⟨true, 2048, 1, "10.0.0.2"⟩ 150000 9999 (-55) 40 90)] ∧
    docKeys (statusDoc false ⟨true, 2048, 1, "10.0.0.2"⟩ 150000 9999 (-55) 40 90) =
      ["heap", "uptime", "rssi", "pwm", "servo"] :=
  ⟨(c4_status_always_has_system_fields false ⟨true, 2048, 1, "10.0.0.2"⟩
      150000 9999 (-55) 40 90).1,
   (c4_status_always_has_system_fields false ⟨true, 2048, 1, "10.0.0.2"⟩
      150000 9999 (-55) 40 90).2.2.2.2.2.2.1 rfl⟩

/-- Claim C9: every well-formed MQTT update writes all five keys of the
`mqtt` namespace in one begin/end bracket, substituting the documented
default for each absent optional field. -/
theorem c9_mqtt_defaults (b : MQTTBody) :
    handleAPIMQTT true true (some b) =
      [.prefBegin "mqtt",
       .prefPutStr "server" (b.server.getD "broker.hivemq.com"),
       .prefPutNat "port" (b.port.getD 1883),
       .prefPutStr "client" (b.client.getD "ESP32_Multitool"),
       .prefPutStr "user" (b.user.getD ""),
       .prefPutStr "pass" (b.pass.getD ""),
       .prefEnd, .send 200 "application/json" jsonOkBody] ∧
    (b.server = none → b.server.getD "broker.hivemq.com" = "broker.hivemq.com") ∧
    (b.port = none → b.port.getD 1883 = 1883) ∧
    (b.client = none → b.client.getD "ESP32_Multitool" = "ESP32_Multitool") ∧
    (b.user = none → b.user.getD "" = "") ∧
    (b.pass = none → b.pass.getD "" = "") := by
  refine ⟨rfl, ?_, ?_, ?_, ?_, ?_⟩ <;> (intro h; simp [h])

/-- Witness for C9: an update supplying only `server` persists the
documented defaults for the other four keys. -/
theorem c9_witness :
    handleAPIMQTT true true (some ⟨some "mqtt.example.org", none, none, none, none⟩) =
      [.prefBegin "mqtt",
       .prefPutStr "server" "mqtt.example.org",
       .prefPutNat "port" 1883,
       .prefPutStr "client" "ESP32_Multitool",
       .prefPutStr "user" "",
       .prefPutStr "pass" "",
       .prefEnd, .send 200 "application/json" jsonOkBody] := by
  have h := (c9_mqtt_defaults ⟨some "mqtt.example.org", none, none, none, none⟩).1
  simpa using h

/-- Claim C7 counterexample: a malformed body on the password endpoint is
answered with a plain-text 400, not the structured
`application/json` error the claim requires for all five endpoints. -/
theorem c7_password_plaintext_400 :
    handleAPIPassword true true none "secret12" =
      some [.send 400 "text/plain" "Invalid JSON"] ∧
    "text/plain" ≠ "application/json" :=
  ⟨rfl, by decide⟩

/-- Claim C7 as amended: on a body that fails JSON decoding every one of
the five endpoints answers 400 and performs no mutation; relay, pwm and
servo send the structured JSON error body, while password and mqtt send
the plain-text `Invalid JSON`. -/
theorem c7_malformed_json_no_mutation (lockOk attached : Bool)
    (wwwPassword : String) :
    handleAPIRelay true true none lockOk =
      [.send 400 "application/json" jsonInvalidBody] ∧
    handleAPIPWM true true none =
      [.send 400 "application/json" jsonInvalidBody] ∧
    handleAPIServo true true none attached =
      [.send 400 "application/json" jsonInvalidBody] ∧
    handleAPIPassword true true none wwwPassword =
      some [.send 400 "text/plain" "Invalid JSON"] ∧
    handleAPIMQTT true true none =
      [.send 400 "text/plain" "Invalid JSON"] ∧
    mutationFree [.send 400 "application/json" jsonInvalidBody] = true ∧
    mutationFree [.send 400 "text/plain" "Invalid JSON"] = true := by
  refine ⟨rfl, rfl, rfl, rfl, rfl, ?_, ?_⟩ <;> decide

/-- Witness for C5 at the spec's out-of-range examples `-5 → 0` and
`150 → 100` (PWM) and `200 → 180` (servo). -/
theorem c5_witness :
    handleAPIPWM true true (some ⟨some (-5)⟩) =
      [.setPWMStored 0, .pwmDrive 0,
       .send 200 "application/json" jsonOkBody] ∧
    handleAPIPWM true true (some ⟨some 150⟩) =
      [.setPWMStored 100, .pwmDrive 100,
       .send 200 "application/json" jsonOkBody] ∧
    handleAPIServo true true (some ⟨some 200⟩) true =
      [.setServoStored 180, .servoWrite 180,
       .send 200 "application/json" jsonOkBody] := by
  have h1 := (c5_pwm_servo_clamped (-5) 200 true).1
  have h2 := (c5_pwm_servo_clamped 150 200 true).1
  have h3 := (c5_pwm_servo_clamped 150 200 true).2.1
  refine ⟨?_, ?_, ?_⟩
  · simpa [constrain] using h1
  · simpa [constrain] using h2
  · simpa [constrain] using h3

/-- Witness for C7 (amended) at a concrete malformed request. -/
theorem c7_witness :
    handleAPIRelay true true none true =
      [.send 400 "application/json" jsonInvalidBody] ∧
    handleAPIMQTT true true none =
      [.send 400 "text/plain" "Invalid JSON"] :=
  ⟨(c7_malformed_json_no_mutation true true "secret12").1,
   (c7_malformed_json_no_mutation true true "secret12").2.2.2.2.1⟩

/-- A trace that reports success: it sends the `{"status":"ok"}` 200
response. -/
def sentOk (acts : List Action) : Prop :=
  Action.send 200 "application/json" jsonOkBody ∈ acts

/-- Claim C3: with all three fields present, the password update succeeds
iff the submitted current password equals the in-memory password and both
new passwords have length at least 8; a mismatch yields a bare 401, a
length violation a bare 400, each leaving the durable store and the
in-memory mirror untouched; on success the durable `auth` namespace is
written first and the in-memory mirror (`www_password`, `ota_password`)
is updated afterwards. -/
theorem c3_password_update (wwwPassword current newPass otaPass : String) :
    ((∃ acts, handleAPIPassword true true
        (some ⟨some current, some newPass, some otaPass⟩) wwwPassword = some acts ∧
        sentOk acts) ↔
      (current = wwwPassword ∧ 8 ≤ newPass.length ∧ 8 ≤ otaPass.length)) ∧
    (current ≠ wwwPassword →
      handleAPIPassword true true
        (some ⟨some current, some newPass, some otaPass⟩) wwwPassword =
        some [.send 401 "text/plain" "Current password incorrect"]) ∧
    (current = wwwPassword → newPass.length < 8 ∨ otaPass.length < 8 →
      handleAPIPassword true true
        (some ⟨some current, some newPass, some otaPass⟩) wwwPassword =
        some [.send 400 "text/plain" "Passwords must be at least 8 characters"]) ∧
    (current = wwwPassword → 8 ≤ newPass.length → 8 ≤ otaPass.length →
      handleAPIPassword true true
        (some ⟨some current, some newPass, some otaPass⟩) wwwPassword =
        some [.prefBegin "auth", .prefPutStr "pass" newPass,
              .prefPutStr "otapass" otaPass, .prefEnd,
              .setWwwPassword newPass, .setOtaPassword otaPass,
              .send 200 "application/json" jsonOkBody]) ∧
    mutationFree [.send 401 "text/plain" "Current password incorrect"] = true ∧
    mutationFree [.send 400 "text/plain" "Passwords must be at least 8 characters"] = true := by
  by_cases hc : current = wwwPassword
  · by_cases hn : newPass.length < 8
    · have heval : handleAPIPassword true true
          (some ⟨some current, some newPass, some otaPass⟩) wwwPassword =
          some [.send 400 "text/plain" "Passwords must be at least 8 characters"] := by
        simp [handleAPIPassword, hc, hn]
      refine ⟨?_, fun h => absurd hc h, fun _ _ => heval,
        fun _ h8 _ => absurd h8 (by omega), by decide, by decide⟩
      constructor
      · rintro ⟨acts, hacts, hok⟩
        rw [heval] at hacts
        cases hacts
        simp [sentOk, jsonOkBody] at hok
      · rintro ⟨-, h8, -⟩
        exact absurd h8 (by omega)
    · by_cases ho : otaPass.length < 8
      · have heval : handleAPIPassword true true
            (some ⟨some current, some newPass, some otaPass⟩) wwwPassword =
            some [.send 400 "text/plain" "Passwords must be at least 8 characters"] := by
          simp [handleAPIPassword, hc, hn, ho]
        refine ⟨?_, fun h => absurd hc h, fun _ _ => heval,
          fun _ _ h8 => absurd h8 (by omega), by decide, by decide⟩
        constructor
        · rintro ⟨acts, hacts, hok⟩
          rw [heval] at hacts
          cases hacts
          simp [sentOk, jsonOkBody] at hok
        · rintro ⟨-, -, h8⟩
          exact absurd h8 (by omega)
      · have heval : handleAPIPassword true true
            (some ⟨some current, some newPass, some otaPass⟩) wwwPassword =
            some [.prefBegin "auth", .prefPutStr "pass" newPass,
                  .prefPutStr "otapass" otaPass, .prefEnd,
                  .setWwwPassword newPass, .setOtaPassword otaPass,
                  .send 200 "application/json" jsonOkBody] := by
          simp [handleAPIPassword, hc, hn, ho]
        refine ⟨?_, fun h => absurd hc h, fun _ hlen => ?_, fun _ _ _ => heval,
          by decide, by decide⟩
        · constructor
          · rintro -
            exact ⟨hc, by omega, by omega⟩
          · rintro -
            exact ⟨_, heval, by simp [sentOk]⟩
        · rcases hlen with h | h
          · exact absurd h hn
          · exact absurd h ho
  · have heval : handleAPIPassword true true
        (some ⟨some current, some newPass, some otaPass⟩) wwwPassword =
        some [.send 401 "text/plain" "Current password incorrect"] := by
      simp [handleAPIPassword, hc]
    refine ⟨?_, fun _ => heval, fun h _ => absurd h hc, fun h => absurd h hc,
      by decide, by decide⟩
    constructor
    · rintro ⟨acts, hacts, hok⟩
      rw [heval] at hacts
      cases hacts
      simp [sentOk, jsonOkBody] at hok
    · rintro ⟨h, -⟩
      exact absurd h hc

/-- Witness for C3 at a concrete successful update. -/
theorem c3_witness :
    handleAPIPassword true true
      (some ⟨some "secret12", some "newpass12", some "otapass12"⟩) "secret12" =
      some [.prefBegin "auth", .prefPutStr "pass" "newpass12",
            .prefPutStr "otapass" "otapass12", .prefEnd,
            .setWwwPassword "newpass12", .setOtaPassword "otapass12",
            .send 200 "application/json" jsonOkBody] :=
  (c3_password_update "secret12" "secret12" "newpass12" "otapass12").2.2.2.1
    rfl (by decide) (by decide)

/-- Claim C10: the password handler has no guard for missing fields:
with all three fields present its validation always yields a defined
result, but an absent `current` reaches `strcmp(NULL, ..)`, an absent
`newpass` (with the current password correct) reaches `strlen(NULL)`,
and an absent `otapass` (with `newpass` long enough) likewise — each
modelled as the undefined result `none`. -/
theorem c10_missing_field_undefined
    (wwwPassword current newPass otaPass : String) :
    (handleAPIPassword true true
        (some ⟨some current, some newPass, some otaPass⟩) wwwPassword).isSome = true ∧
    handleAPIPassword true true
        (some ⟨none, some newPass, some otaPass⟩) wwwPassword = none ∧
    handleAPIPassword true true
        (some ⟨some wwwPassword, none, some otaPass⟩) wwwPassword = none ∧
    (8 ≤ newPass.length →
      handleAPIPassword true true
        (some ⟨some wwwPassword, some newPass, none⟩) wwwPassword = none) := by
  refine ⟨?_, rfl, ?_, fun h8 => ?_⟩
  · by_cases hc : current = wwwPassword
    · by_cases hn : newPass.length < 8
      · simp [handleAPIPassword, hc, hn]
      · by_cases ho : otaPass.length < 8
        · simp [handleAPIPassword, hc, hn, ho]
        · simp [handleAPIPassword, hc, hn, ho]
    · simp [handleAPIPassword, hc]
  · simp [handleAPIPassword]
  · simp [handleAPIPassword]
    omega

/-- Witness for C10 at concrete requests. -/
theorem c10_witness :
    (handleAPIPassword true true
        (some ⟨some "a", some "b", some "c"⟩) "secret12").isSome = true ∧
    handleAPIPassword true true
        (some ⟨some "secret12", some "newpass12", none⟩) "secret12" = none :=
  ⟨(c10_missing_field_undefined "secret12" "a" "b" "c").1,
   (c10_missing_field_undefined "secret12" "a" "newpass12" "c").2.2.2 (by decide)⟩

/-- Claim C6 counterexample: handling a subsequent chunk of the exchange
(an `UPLOAD_FILE_WRITE` event) re-evaluates the authentication check —
the upload callback runs `server.authenticate` on every invocation. -/
theorem c6_chunk_rechecks_auth :
    Action.authCheck ∈
      (handleOTAUpdate true ⟨true, none, 0, false⟩ (.write 10 10)).2 := by
  decide

/-- Claim C6 as amended: every invocation of the OTA upload callback —
the initiating start event and each subsequent chunk event alike —
first evaluates the authentication check against the same exchange's
credentials, and on failure challenges without touching the session. -/
theorem c6_auth_checked_every_event (authOk : Bool) (s : UpdateState)
    (ev : UploadEvent) :
    ((handleOTAUpdate authOk s ev).2).head? = some .authCheck ∧
    (authOk = false → handleOTAUpdate authOk s ev = (s, [.authCheck, .challenge])) := by
  cases authOk
  · exact ⟨rfl, fun _ => rfl⟩
  · refine ⟨?_, fun h => by cases h⟩
    cases ev <;> simp [handleOTAUpdate]

/-- Witness for C6 (amended) at a failed authentication on a chunk event. -/
theorem c6_witness :
    ((handleOTAUpdate false ⟨true, none, 0, false⟩ (.write 10 10)).2).head? =
      some Action.authCheck ∧
    handleOTAUpdate false ⟨true, none, 0, false⟩ (.write 10 10) =
      (⟨true, none, 0, false⟩, [.authCheck, .challenge]) :=
  ⟨(c6_auth_checked_every_event false ⟨true, none, 0, false⟩ (.write 10 10)).1,
   (c6_auth_checked_every_event false ⟨true, none, 0, false⟩ (.write 10 10)).2 rfl⟩

/-- The scan loop accumulates exactly the acknowledged addresses of its
probe list, in probe order. -/
theorem i2cScan_foldl_eq (ack : Nat → Bool) (name : Nat → String)
    (l : List Nat) (acc : List I2CDevice) :
    l.foldl (fun acc a => if ack a then acc ++ [⟨a, name a⟩] else acc) acc =
      acc ++ (l.filter ack).map (fun a => ⟨a, name a⟩) := by
  induction l generalizing acc with
  | nil => simp
  | cons x xs ih =>
    by_cases hx : ack x
    · simp [hx, ih]
    · simp [hx, ih]

/-- `i2cScanDevices` is the ack-filtered ascending probe list 1..126,
each address paired with its looked-up name. -/
theorem i2cScanDevices_eq (ack : Nat → Bool) (name : Nat → String) :
    i2cScanDevices ack name =
      ((List.range' 1 126).filter ack).map (fun a => ⟨a, name a⟩) := by
  simpa using i2cScan_foldl_eq ack name (List.range' 1 126) []

/-- Claim C8: the i2c scan probes 1..126 ascending, so the returned list
is ascending by address and holds exactly the acknowledging addresses
with their looked-up names; a bus-lock failure yields an empty device
list inside a successful 200 response. -/
theorem c8_i2c_scan (ack : Nat → Bool) (name : Nat → String) (lockOk : Bool) :
    handleAPIi2cScan true lockOk ack name =
      [.sendDevices 200 (if lockOk then i2cScanDevices ack name else [])] ∧
    List.Pairwise (fun d e : I2CDevice => d.addr < e.addr)
      (i2cScanDevices ack name) ∧
    (∀ d : I2CDevice, d ∈ i2cScanDevices ack name ↔
       (1 ≤ d.addr ∧ d.addr ≤ 126 ∧ ack d.addr = true ∧ d.name = name d.addr)) ∧
    (lockOk = false → handleAPIi2cScan true lockOk ack name = [.sendDevices 200 []]) := by
  refine ⟨rfl, ?_, ?_, fun h => by simp [handleAPIi2cScan, h]⟩
  · rw [i2cScanDevices_eq]
    exact ((List.pairwise_lt_range' 1 126).filter ack).map _ (fun a b h => h)
  · intro d
    rw [i2cScanDevices_eq]
    constructor
    · intro hd
      simp only [List.mem_map, List.mem_filter, List.mem_range'_1] at hd
      obtain ⟨a, ⟨⟨h1, h2⟩, hack⟩, rfl⟩ := hd
      refine ⟨h1, ?_, hack, rfl⟩
      show a ≤ 126
      omega
    · rintro ⟨h1, h2, hack, hname⟩
      obtain ⟨da, dn⟩ := d
      dsimp only at h1 h2 hack hname
      subst hname
      simp only [List.mem_map, List.mem_filter, List.mem_range'_1]
      exact ⟨da, ⟨⟨h1, by omega⟩, hack⟩, rfl⟩

set_option maxRecDepth 8192 in
/-- Witness for C8: with simulated ACKs at 0x3C and 0x68 the scan yields
exactly those two devices in ascending order, and a lock failure yields
an empty 200 response. -/
theorem c8_witness :
    i2cScanDevices (fun a => a == 60 || a == 104) (fun _ => "OLED") =
      [⟨60, "OLED"⟩, ⟨104, "OLED"⟩] ∧
    handleAPIi2cScan true false (fun a => a == 60 || a == 104) (fun _ => "OLED") =
      [.sendDevices 200 []] :=
  ⟨by decide,
   (c8_i2c_scan (fun a => a == 60 || a == 104) (fun _ => "OLED") false).2.2.2 rfl⟩

/-- The session state after the start event of an exchange. -/
def otaAfterStart (fn : String) (beginOk : Bool) : UpdateState :=
  (handleOTAUpdate true updateIdle (.start fn beginOk)).1

/-- With an error latched, `Update.write` is a no-op returning 0. -/
theorem updateWrite_of_err (s : UpdateState) (hs : s.err.isSome = true)
    (size accepted : Nat) : updateWrite s size accepted = (s, 0) := by
  simp [updateWrite, hs]

/-- With an error latched, draining any remaining chunks of the exchange
leaves the session state untouched: no flash write is attempted. -/
theorem runWrites_of_err (s : UpdateState) (hs : s.err.isSome = true)
    (chunks : List (Nat × Nat)) : runWrites true s chunks = s := by
  induction chunks with
  | nil => rfl
  | cons c cs ih =>
    have hstep : (handleOTAUpdate true s (.write c.1 c.2)).1 = s := by
      show (updateWrite s c.1 c.2).1 = s
      rw [updateWrite_of_err s hs]
    calc runWrites true s (c :: cs)
        = runWrites true (handleOTAUpdate true s (.write c.1 c.2)).1 cs := rfl
      _ = runWrites true s cs := by rw [hstep]
      _ = s := ih

/-- A chunk write preserves the mid-exchange invariant: the update is
running or an error is latched. -/
theorem updateWrite_inv (s : UpdateState)
    (h : s.running = true ∨ s.err.isSome = true) (size accepted : Nat) :
    (updateWrite s size accepted).1.running = true ∨
      (updateWrite s size accepted).1.err.isSome = true := by
  cases herr : s.err with
  | some e => simp [updateWrite, herr]
  | none =>
    have hr : s.running = true := by
      rcases h with h | h
      · exact h
      · rw [herr] at h
        simp at h
    by_cases hacc : min accepted size < size
    · simp [updateWrite, herr, hr, hacc]
    · simp [updateWrite, herr, hr, hacc]

/-- The mid-exchange invariant holds after any chunk sequence. -/
theorem runWrites_inv (s : UpdateState)
    (h : s.running = true ∨ s.err.isSome = true) (chunks : List (Nat × Nat)) :
    (runWrites true s chunks).running = true ∨
      (runWrites true s chunks).err.isSome = true := by
  induction chunks generalizing s with
  | nil => exact h
  | cons c cs ih =>
    have hstep := updateWrite_inv s h c.1 c.2
    have hcons : runWrites true s (c :: cs) =
        runWrites true (updateWrite s c.1 c.2).1 cs := rfl
    rw [hcons]
    exact ih _ hstep

/-- A chunk write that appends fewer bytes than the chunk size leaves an
error latched (the mid-exchange invariant rules out the idle state). -/
theorem updateWrite_short (s : UpdateState)
    (hinv : s.running = true ∨ s.err.isSome = true) (size accepted : Nat)
    (hshort : (updateWrite s size accepted).2 < size) :
    (updateWrite s size accepted).1.err.isSome = true := by
  cases herr : s.err with
  | some e => simp [updateWrite, herr]
  | none =>
    have hr : s.running = true := by
      rcases hinv with h | h
      · exact h
      · rw [herr] at h
        simp at h
    by_cases hacc : min accepted size < size
    · simp [updateWrite, herr, hr, hacc]
    · exfalso
      simp [updateWrite, herr, hr, hacc] at hshort

/-- A latched error denotes the `Failed` session status. -/
theorem sessionStatus_of_err (s : UpdateState) (h : s.err.isSome = true) :
    sessionStatus s = .Failed := by
  simp [sessionStatus, h]

/-- With an error latched, finalize fails, preserving the error and the
byte count. -/
theorem updateFinish_of_err (s : UpdateState) (h : s.err.isSome = true)
    (validateOk : Bool) :
    (updateFinish s validateOk).1.err = s.err ∧
      (updateFinish s validateOk).1.written = s.written ∧
      (updateFinish s validateOk).2 = false := by
  simp [updateFinish, h]

/-- Claim C1: in one OTA upload exchange (start, then chunk writes),
whenever a chunk write appends fewer bytes to the flash-update target
than the chunk size, the session is `Failed` from that point on, and no
further flash write is attempted for any remaining chunk of the
exchange: draining the rest of the body leaves the session state —
including the flash byte count — untouched, through the final End. -/
theorem c1_short_write_fails_session (fn : String) (beginOk : Bool)
    (pre : List (Nat × Nat)) (size accepted : Nat) (rest : List (Nat × Nat))
    (validateOk : Bool) (sPre sFail : UpdateState)
    (hPre : sPre = runWrites true (otaAfterStart fn beginOk) pre)
    (hFail : sFail = (handleOTAUpdate true sPre (.write size accepted)).1)
    (hshort : (updateWrite sPre size accepted).2 < size) :
    sessionStatus sFail = .Failed ∧
    runWrites true sFail rest = sFail ∧
    sessionStatus (runWrites true sFail rest) = .Failed ∧
    (handleOTAUpdate true (runWrites true sFail rest) (.finish validateOk)).1.written
      = sFail.written ∧
    sessionStatus
      (handleOTAUpdate true (runWrites true sFail rest) (.finish validateOk)).1
      = .Failed := by
  have hinv0 : (otaAfterStart fn beginOk).running = true ∨
      (otaAfterStart fn beginOk).err.isSome = true := by
    cases beginOk <;> simp [otaAfterStart, handleOTAUpdate, updateBegin]
  have hinvPre : sPre.running = true ∨ sPre.err.isSome = true := by
    rw [hPre]
    exact runWrites_inv _ hinv0 pre
  have herrFail : sFail.err.isSome = true := by
    rw [hFail]
    exact updateWrite_short sPre hinvPre size accepted hshort
  have hrest : runWrites true sFail rest = sFail :=
    runWrites_of_err sFail herrFail rest
  refine ⟨sessionStatus_of_err _ herrFail, hrest, ?_, ?_, ?_⟩
  · rw [hrest]
    exact sessionStatus_of_err _ herrFail
  · rw [hrest]
    show (updateFinish sFail validateOk).1.written = sFail.written
    exact (updateFinish_of_err sFail herrFail validateOk).2.1
  · rw [hrest]
    show sessionStatus (updateFinish sFail validateOk).1 = .Failed
    apply sessionStatus_of_err
    rw [(updateFinish_of_err sFail herrFail validateOk).1]
    exact herrFail

/-- Witness for C1: begin, one full chunk, then a chunk of 10 bytes of
which the flash takes only 9 — the session fails and the remaining
chunks and the End change nothing. -/
theorem c1_witness :
    sessionStatus (handleOTAUpdate true
        (runWrites true (otaAfterStart "firmware.bin" true) [(4, 4)])
        (.write 10 9)).1 = .Failed ∧
    runWrites true (handleOTAUpdate true
        (runWrites true (otaAfterStart "firmware.bin" true) [(4, 4)])
        (.write 10 9)).1 [(5, 5)] =
      (handleOTAUpdate true
        (runWrites true (otaAfterStart "firmware.bin" true) [(4, 4)])
        (.write 10 9)).1 :=
  ⟨(c1_short_write_fails_session "firmware.bin" true [(4, 4)] 10 9 [(5, 5)] true
      _ _ rfl rfl (by decide)).1,
   (c1_short_write_fails_session "firmware.bin" true [(4, 4)] 10 9 [(5, 5)] true
      _ _ rfl rfl (by decide)).2.1⟩

/-- Claim C2 counterexample: an exchange whose image validation fails at
End is answered by the constant text `Update Failed`: the session's
failure detail (`MD5 Check Failed`) does not occur anywhere in the
response, so the error response does not contain the failure detail. -/
theorem c2_detail_not_in_response :
    (handleOTAUpdate true
        (handleOTAUpdate true (otaAfterStart "firmware.bin" true) (.write 4 4)).1
        (.finish false)).1.err = some .validateFail ∧
    handleOTAUpdateDone (handleOTAUpdate true
        (handleOTAUpdate true (otaAfterStart "firmware.bin" true) (.write 4 4)).1
        (.finish false)).1 =
      [.send 500 "text/plain" "Update Failed"] ∧
    strContains "Update Failed" (UpdateError.detail .validateFail) = false := by
  refine ⟨rfl, rfl, ?_⟩
  decide

/-- Claim C2 as amended: at finalize, a failed session is answered with
the fixed plain-text 500 `Update Failed` — independent of the failure
cause, whose detail goes to the serial log, not the response — and no
restart is performed; a successful session is answered with the success
text and the restart happens only after the fixed 1000 ms delay that
follows the response send.  A validation failure at End leaves the
session `Failed` (so the error response follows), a validation success
leaves it `Complete`. -/
theorem c2_finalize_responses (s : UpdateState) :
    (updateHasError s = true →
      handleOTAUpdateDone s = [.send 500 "text/plain" "Update Failed"] ∧
      Action.restart ∉ handleOTAUpdateDone s) ∧
    (updateHasError s = false →
      handleOTAUpdateDone s =
        [.send 200 "text/plain" "Update OK - Rebooting...",
         .delayMs 1000, .restart]) ∧
    (s.running = true → s.err = none →
      sessionStatus (handleOTAUpdate true s (.finish false)).1 = .Failed ∧
      updateHasError (handleOTAUpdate true s (.finish false)).1 = true ∧
      sessionStatus (handleOTAUpdate true s (.finish true)).1 = .Complete ∧
      updateHasError (handleOTAUpdate true s (.finish true)).1 = false) := by
  refine ⟨fun h => ⟨?_, ?_⟩, fun h => ?_, fun hr he => ?_⟩
  · simp [handleOTAUpdateDone, h]
  · simp [handleOTAUpdateDone, h]
  · simp [handleOTAUpdateDone, h]
  · refine ⟨?_, ?_, ?_, ?_⟩ <;>
      simp [handleOTAUpdate, updateFinish, sessionStatus, updateHasError, hr, he]

/-- Witness for C2 (amended) at a failed and at a clean session. -/
theorem c2_witness :
    handleOTAUpdateDone ⟨false, some .writeFail, 3, false⟩ =
      [.send 500 "text/plain" "Update Failed"] ∧
    handleOTAUpdateDone ⟨false, none, 4, true⟩ =
      [.send 200 "text/plain" "Update OK - Rebooting...",
       .delayMs 1000, .restart] :=
  ⟨((c2_finalize_responses ⟨false, some .writeFail, 3, false⟩).1 rfl).1,
   (c2_finalize_responses ⟨false, none, 4, true⟩).2.1 rfl⟩

end Esp32
